import Mathlib

/-!
Verification of `mm-nmea-bridge.py`, a bridge forwarding ModemManager NMEA
output to gpsd via a PTY.

The shallow embedding below models Python strings as `List Char` and every
observable side effect (PTY writes, log calls, `time.sleep`, D-Bus calls) as
an element of an event trace.  Fallible operations take oracles describing
the outcome of each external call; Python exceptions are an explicit
`PyExc` type.
-/

set_option autoImplicit false

namespace MMNmeaBridge

/-- The whitespace characters stripped by Python `str.strip()` (the ASCII
and Latin-1 part of Python's whitespace set, which covers every character
the bridge can meet in NMEA payloads). -/
def isPySpace (c : Char) : Bool :=
  c = ' ' || c = '\t' || c = '\n' || c = '\r' ||
  c = Char.ofNat 0x0B || c = Char.ofNat 0x0C ||
  c = Char.ofNat 0x1C || c = Char.ofNat 0x1D || c = Char.ofNat 0x1E ||
  c = Char.ofNat 0x1F || c = Char.ofNat 0x85 || c = Char.ofNat 0xA0

/-- Python `str.strip()` on a character list: remove leading and trailing
whitespace. -/
def pyStrip (s : List Char) : List Char :=
  ((s.dropWhile isPySpace).reverse.dropWhile isPySpace).reverse

/-- The line-boundary characters recognised by Python `str.splitlines()`. -/
def isLineBreak (c : Char) : Bool :=
  c = '\n' || c = '\r' || c = Char.ofNat 0x0B || c = Char.ofNat 0x0C ||
  c = Char.ofNat 0x1C || c = Char.ofNat 0x1D || c = Char.ofNat 0x1E ||
  c = Char.ofNat 0x85 || c = Char.ofNat 0x2028 || c = Char.ofNat 0x2029

/-- Python `str.splitlines()`: `"\r\n"` counts as one boundary and a trailing
boundary produces no final empty line (`"".splitlines() == []`,
`"a\n".splitlines() == ["a"]`, `"\n".splitlines() == [""]`). -/
def pySplitlines : List Char → List (List Char)
  | [] => []
  | '\r' :: '\n' :: rest => [] :: pySplitlines rest
  | c :: rest =>
    if isLineBreak c then [] :: pySplitlines rest
    else
      match pySplitlines rest with
      | [] => [[c]]
      | l :: ls => (c :: l) :: ls

/-- Observable side effects of the bridge, in program order.  The `log…`
constructors stand for the `log()` calls of the script (print + syslog),
carrying the data interpolated into the corresponding f-string. -/
inductive Ev where
  | write (data : List Char)
  | logPtyWriteError (err : List Char)
  | logNoModemRetry (attempt retries delay : Nat)
  | logAutoDiscovered (index : Nat) (path : List Char)
  | logPollError (err : List Char)
  | logSetupRetry (errName : List Char) (attempt : Nat)
  | logNmeaEnabled (index : Nat) (path : List Char)
  | logShuttingDown
  | sleep (secs : Nat)
  | getObjects
  | setupCall (sources : Nat) (enable : Bool)
  deriving DecidableEq, Repr

/-- Python exceptions raised by the modelled code paths.  The discovery
`RuntimeError` carries the elapsed-time budget `retries * delay` that the
script interpolates into its message. -/
inductive PyExc where
  | osError (msg : List Char)
  | keyError (msg : List Char)
  | runtimeError (budgetSecs : Nat)
  | dbusError (name : List Char)
  | valueError
  | systemExit (code : Nat)
  deriving DecidableEq, Repr

/-- The text used when an exception is interpolated into a log f-string
(`f"Poll error: {exc}"`); structured data is kept, formatting abstracted. -/
def pyExcMsg : PyExc → List Char
  | .osError m => m
  | .keyError m => m
  | .runtimeError n => (Nat.repr n).toList
  | .dbusError n => n
  | .valueError => []
  | .systemExit _ => []

/-- `MM_LOC_IFACE  = "org.freedesktop.ModemManager1.Modem.Location"`. -/
def MM_LOC_IFACE : List Char :=
  "org.freedesktop.ModemManager1.Modem.Location".toList

/-- `GPS_NMEA = dbus.UInt32(0x04)` — the NMEA capability bit. -/
def GPS_NMEA : Nat := 0x04

/-- The canonical NMEA line terminator appended by `write_nmea`. -/
def crlf : List Char := ['\r', '\n']

/-- Python `line.startswith("$")`. -/
def startsWithDollar : List Char → Bool
  | '$' :: _ => true
  | _ => false

/-- Oracle for `os.write(master_fd, …)`: the `n`-th write attempt of a call
raises `OSError msg` when the oracle yields `some msg`, succeeds otherwise. -/
abbrev WriteOracle := Nat → Option (List Char)

/-- The oracle under which every PTY write succeeds. -/
def wrOk : WriteOracle := fun _ => none

/-- The loop body of `write_nmea`: for each line, strip it, and if it starts
with `"$"` attempt `os.write(master_fd, (line + "\r\n").encode())`; an
`OSError` is caught and logged (`log(f"PTY write error: {exc}")`) and the
loop continues with the next line. -/
def writeLoop (wr : WriteOracle) : Nat → List (List Char) → List Ev
  | _, [] => []
  | n, rawLine :: rest =>
    let line := pyStrip rawLine
    if startsWithDollar line then
      match wr n with
      | none => Ev.write (line ++ crlf) :: writeLoop wr (n + 1) rest
      | some e => Ev.logPtyWriteError e :: writeLoop wr (n + 1) rest
    else
      writeLoop wr n rest

/-- `write_nmea(sentences)`: iterate over `sentences.strip().splitlines()`
with the loop above.  Total: every exception the body can raise (`OSError`
from `os.write`) is caught inside the loop. -/
def write_nmea (wr : WriteOracle) (sentences : List Char) : List Ev :=
  writeLoop wr 0 (pySplitlines (pyStrip sentences))

/-- The stripped lines of the input that begin with the sentence-start
marker, in original relative order (the spec's description of what
forwarding must keep). -/
def dollarLines (sentences : List Char) : List (List Char) :=
  ((pySplitlines (pyStrip sentences)).map pyStrip).filter startsWithDollar

lemma writeLoop_wrOk (n : Nat) (ls : List (List Char)) :
    writeLoop wrOk n ls =
      ((ls.map pyStrip).filter startsWithDollar).map (fun l => Ev.write (l ++ crlf)) := by
  induction ls generalizing n with
  | nil => rfl
  | cons l rest ih =>
    by_cases h : startsWithDollar (pyStrip l) <;>
      simp [writeLoop, wrOk, h, ih]

/-- C1: for every input string, `write_nmea` (with every write succeeding)
writes exactly the whitespace-trimmed lines that begin with `'$'`, each with
`"\r\n"` appended, in their original relative order, and writes nothing for
the other lines. -/
theorem write_nmea_writes_exactly_dollar_lines (sentences : List Char) :
    write_nmea wrOk sentences =
      (dollarLines sentences).map (fun l => Ev.write (l ++ crlf)) := by
  simpa [write_nmea, dollarLines] using
    writeLoop_wrOk 0 (pySplitlines (pyStrip sentences))

lemma writeLoop_forall₂ (wr : WriteOracle) (n : Nat) (ls : List (List Char)) :
    List.Forall₂ (fun l ev => ev = Ev.write (l ++ crlf) ∨ ∃ e, ev = Ev.logPtyWriteError e)
      ((ls.map pyStrip).filter startsWithDollar) (writeLoop wr n ls) := by
  induction ls generalizing n with
  | nil => simp [writeLoop]
  | cons l rest ih =>
    by_cases h : startsWithDollar (pyStrip l)
    · cases hw : wr n <;>
        simp [writeLoop, h, hw, List.forall₂_cons, ih]
    · simpa [writeLoop, h] using ih n

/-- C9: under every write oracle (including one where some or all writes fail,
e.g. on an already-closed handle), each `'$'`-line of the input produces
exactly one event — a successful write of the terminated line or a caught,
logged `OSError` — so a write failure never escapes `write_nmea` and the loop
continues with the remaining lines. -/
theorem write_nmea_write_failure_contained (wr : WriteOracle) (sentences : List Char) :
    List.Forall₂ (fun l ev => ev = Ev.write (l ++ crlf) ∨ ∃ e, ev = Ev.logPtyWriteError e)
      (dollarLines sentences) (write_nmea wr sentences) := by
  simpa [write_nmea, dollarLines] using
    writeLoop_forall₂ wr 0 (pySplitlines (pyStrip sentences))

/-- The `Location` property value delivered on the bus: a mapping from
capability-bit key to string payload (e.g. `{dbus.UInt32(4): "$GPGGA,…"}`). -/
abbrev Location := List (Nat × List Char)

/-- `str(location.get(k, ""))`. -/
def locGet (loc : Location) (k : Nat) : List Char :=
  (loc.lookup k).getD []

/-- One tick of `poll_nmea(props_iface)`.  `getRes` is the outcome of the
D-Bus call `props_iface.Get(MM_LOC_IFACE, "Location")` (which the `try`
block may see raise); `last` is the global `_last_nmea` before the tick.
Result: (return value, new `_last_nmea`, events of the tick). -/
def poll_nmea (wr : WriteOracle) (getRes : Except PyExc Location) (last : List Char) :
    Bool × List Char × List Ev :=
  match getRes with
  | .error exc => (true, last, [Ev.logPollError (pyExcMsg exc)])
  | .ok location =>
    let nmea := locGet location GPS_NMEA
    if nmea.isEmpty then (true, last, [])
    else (true, nmea, write_nmea wr nmea)

/-- `on_properties_changed(iface, changed, _invalidated)`: the event-feed
handler.  `changed` maps property names to `Location` values.  Result:
(new `_last_nmea`, events).  The handler forwards a non-empty payload but
contains no assignment to `_last_nmea`. -/
def on_properties_changed (wr : WriteOracle) (iface : List Char)
    (changed : List (List Char × Location)) (last : List Char) :
    List Char × List Ev :=
  if iface ≠ MM_LOC_IFACE then (last, [])
  else
    let location := (changed.lookup "Location".toList).getD []
    let nmea := locGet location GPS_NMEA
    if nmea.isEmpty then (last, [])
    else (last, write_nmea wr nmea)

/-- C2 counterexample: an event-feed notification carrying the non-empty
payload `"$GPGGA,1,2"` successfully forwards it (exactly the terminated
sentence is written) yet leaves `_last_nmea` at its previous value `""`
instead of updating it to the forwarded payload. -/
theorem on_properties_changed_leaves_last_stale :
    (on_properties_changed wrOk MM_LOC_IFACE
        [("Location".toList, [(GPS_NMEA, "$GPGGA,1,2".toList)])] []).2 =
      [Ev.write ("$GPGGA,1,2".toList ++ crlf)] ∧
    (on_properties_changed wrOk MM_LOC_IFACE
        [("Location".toList, [(GPS_NMEA, "$GPGGA,1,2".toList)])] []).1 ≠
      "$GPGGA,1,2".toList := by
  refine ⟨by decide, by decide⟩

/-- C2 (amended): the snapshot `_last_nmea` is maintained by the poll feed
alone, and its update is total there: a poll tick whose read yields a
non-empty payload forwards that payload and SETS the snapshot to it; a tick
with an empty payload or a read error leaves the snapshot unchanged (so it
is never rolled back to an earlier or empty value); and the event feed
forwards without ever modifying the snapshot. -/
theorem last_nmea_update_discipline (wr : WriteOracle)
    (getRes : Except PyExc Location) (iface : List Char)
    (changed : List (List Char × Location)) (last : List Char) :
    (∀ location, getRes = Except.ok location →
      locGet location GPS_NMEA ≠ [] →
      (poll_nmea wr getRes last).2.1 = locGet location GPS_NMEA ∧
        (poll_nmea wr getRes last).2.2 =
          write_nmea wr (locGet location GPS_NMEA)) ∧
    (∀ location, getRes = Except.ok location →
      locGet location GPS_NMEA = [] →
      (poll_nmea wr getRes last).2.1 = last) ∧
    (∀ exc, getRes = Except.error exc →
      (poll_nmea wr getRes last).2.1 = last) ∧
    (on_properties_changed wr iface changed last).1 = last := by
  refine ⟨?_, ?_, ?_, ?_⟩
  · rintro location rfl h
    constructor <;> simp [poll_nmea, List.isEmpty_iff, h]
  · rintro location rfl h
    simp [poll_nmea, h]
  · rintro exc rfl
    rfl
  · unfold on_properties_changed
    split
    · rfl
    · dsimp only
      split <;> rfl

/-- Witness for C2's amended statement: a poll tick reading the non-empty
payload `"$GPRMC,7,8"` over a stale snapshot `"$OLD"` forwards the payload
and sets the snapshot to it. -/
theorem last_nmea_update_discipline_witness :
    (poll_nmea wrOk (Except.ok [(GPS_NMEA, "$GPRMC,7,8".toList)])
        "$OLD".toList).2.1 =
        locGet [(GPS_NMEA, "$GPRMC,7,8".toList)] GPS_NMEA ∧
      (poll_nmea wrOk (Except.ok [(GPS_NMEA, "$GPRMC,7,8".toList)])
          "$OLD".toList).2.2 =
        write_nmea wrOk (locGet [(GPS_NMEA, "$GPRMC,7,8".toList)] GPS_NMEA) :=
  (last_nmea_update_discipline wrOk
      (Except.ok [(GPS_NMEA, "$GPRMC,7,8".toList)]) MM_LOC_IFACE []
      "$OLD".toList).1 [(GPS_NMEA, "$GPRMC,7,8".toList)] rfl (by decide)

/-- C8: a poll tick always reports success (`True`, keeping the timer
armed); it forwards the payload and records it as `_last_nmea` exactly when
the payload is non-empty; on an empty payload it forwards nothing and
fabricates nothing from the stale snapshot; and an exception while reading
the snapshot is caught and logged, the tick still returning `True`. -/
theorem poll_nmea_tick_behaviour (wr : WriteOracle)
    (getRes : Except PyExc Location) (last : List Char) :
    (poll_nmea wr getRes last).1 = true ∧
    (∀ exc, getRes = Except.error exc →
      poll_nmea wr getRes last = (true, last, [Ev.logPollError (pyExcMsg exc)])) ∧
    (∀ location, getRes = Except.ok location →
      (locGet location GPS_NMEA = [] →
        poll_nmea wr getRes last = (true, last, [])) ∧
      (locGet location GPS_NMEA ≠ [] →
        poll_nmea wr getRes last =
          (true, locGet location GPS_NMEA,
            write_nmea wr (locGet location GPS_NMEA)))) := by
  refine ⟨?_, ?_, ?_⟩
  · match getRes with
    | .error exc => rfl
    | .ok location =>
      by_cases h : (locGet location GPS_NMEA).isEmpty <;> simp [poll_nmea, h]
  · rintro exc rfl
    rfl
  · rintro location rfl
    constructor
    · intro h
      simp [poll_nmea, h]
    · intro h
      simp [poll_nmea, List.isEmpty_iff, h]

/-- Witness for C8 at a concrete tick: payload `"$GPGGA,1,2"` present,
non-empty, so it is forwarded and recorded. -/
theorem poll_nmea_tick_behaviour_witness :
    poll_nmea wrOk (Except.ok [(GPS_NMEA, "$GPGGA,1,2".toList)]) [] =
      (true, locGet [(GPS_NMEA, "$GPGGA,1,2".toList)] GPS_NMEA,
        write_nmea wrOk (locGet [(GPS_NMEA, "$GPGGA,1,2".toList)] GPS_NMEA)) :=
  ((poll_nmea_tick_behaviour wrOk (Except.ok [(GPS_NMEA, "$GPGGA,1,2".toList)]) []).2.2
    [(GPS_NMEA, "$GPGGA,1,2".toList)] rfl).2 (by decide)

/-- A D-Bus properties dictionary (property name → numeric value; enough
for the `"Capabilities"` lookup with its default of 0). -/
abbrev PropDict := List (List Char × Nat)

/-- An enumerated object's interface dictionary: interface name →
properties. -/
abbrev IfaceDict := List (List Char × PropDict)

/-- The answer of `GetManagedObjects()`: object path → interfaces. -/
abbrev ObjectMap := List (List Char × IfaceDict)

/-- The `"Capabilities"` property key. -/
def capsKey : List Char := "Capabilities".toList

/-- The scan over `objects.items()` inside `find_gps_modem`: the path of the
first object whose interfaces contain `MM_LOC_IFACE` and whose
`"Capabilities"` value (default 0) has the `GPS_NMEA` bit set. -/
def scanObjects : ObjectMap → Option (List Char)
  | [] => none
  | (path, interfaces) :: rest =>
    match interfaces.lookup MM_LOC_IFACE with
    | some props =>
      let caps := (props.lookup capsKey).getD 0
      if (caps &&& GPS_NMEA) != 0 then some path else scanObjects rest
    | none => scanObjects rest

/-- The spec's selection predicate: the object “exposes the location
interface and its capability bitmask includes the NMEA bit”. -/
def isCapable (obj : List Char × IfaceDict) : Bool :=
  match obj.2.lookup MM_LOC_IFACE with
  | some props => ((props.lookup capsKey).getD 0 &&& GPS_NMEA) != 0
  | none => false

/-- `str(path).rsplit("/", 1)[-1]`: the characters after the last `'/'`
(the whole string when no `'/'` occurs). -/
def trailingSegment (path : List Char) : List Char :=
  (path.reverse.takeWhile (fun c => c != '/')).reverse

/-- Python `int(...)` on the strings occurring as path segments: strip
whitespace, then require a non-empty run of decimal digits; `none` models
the `ValueError` raised otherwise (signs and non-decimal forms do not occur
in D-Bus object paths). -/
def parseIndex (s : List Char) : Option Nat :=
  let t := pyStrip s
  if t.isEmpty || !t.all (fun c => c.isDigit) then none
  else some (t.foldl (fun acc c => 10 * acc + (c.toNat - '0'.toNat)) 0)

/-- One discovery attempt: `none` when no capable object was enumerated
(the loop retries); otherwise the `return index, str(path)` value, or the
`ValueError` from `int(...)` on an unparsable trailing segment. -/
def findAttempt (objects : ObjectMap) : Option (Except PyExc (Nat × List Char)) :=
  match scanObjects objects with
  | none => none
  | some path =>
    match parseIndex (trailingSegment path) with
    | some index => some (.ok (index, path))
    | none => some (.error .valueError)

/-- The retry loop of `find_gps_modem`, mirroring
`for attempt in range(retries)` with `remaining = retries - attempt`
iterations left; the retry log and the sleep happen only when
`attempt < retries - 1`, and falling out of the loop raises the
`RuntimeError` whose message carries the `retries * delay` seconds
budget. -/
def findLoop (bus : Nat → ObjectMap) (retries delay : Nat) :
    Nat → Nat → Except PyExc (Nat × List Char) × List Ev
  | _, 0 => (.error (.runtimeError (retries * delay)), [])
  | attempt, remaining + 1 =>
    match findAttempt (bus attempt) with
    | some res => (res, [Ev.getObjects])
    | none =>
      let next := findLoop bus retries delay (attempt + 1) remaining
      if attempt < retries - 1 then
        (next.1, Ev.getObjects :: Ev.logNoModemRetry (attempt + 1) retries delay ::
          Ev.sleep delay :: next.2)
      else
        (next.1, Ev.getObjects :: next.2)

/-- `find_gps_modem(bus, retries, delay)` (called with defaults 15 and 2
from `main`).  `bus k` is the `GetManagedObjects()` answer seen by attempt
`k`. -/
def find_gps_modem (bus : Nat → ObjectMap) (retries delay : Nat) :
    Except PyExc (Nat × List Char) × List Ev :=
  findLoop bus retries delay 0 retries

lemma scanObjects_eq_filter_head (objects : ObjectMap) :
    scanObjects objects = ((objects.filter isCapable).head?).map Prod.fst := by
  induction objects with
  | nil => rfl
  | cons obj rest ih =>
    obtain ⟨path, interfaces⟩ := obj
    cases hl : interfaces.lookup MM_LOC_IFACE with
    | none => simpa [scanObjects, isCapable, hl] using ih
    | some props =>
      by_cases hc : (props.lookup capsKey).getD 0 &&& GPS_NMEA = 0
      · simpa [scanObjects, isCapable, hl, hc] using ih
      · simp [scanObjects, isCapable, hl, hc]

/-- C5: when the first enumeration contains at least one object exposing the
location interface with the NMEA capability bit set, discovery returns the
FIRST such object in enumeration order — as the pair (numeric index parsed
from its trailing path segment, object path) — using a single
`GetManagedObjects` call, regardless of the object's position among the
enumerated objects. -/
theorem find_gps_modem_first_capable (bus : Nat → ObjectMap) (retries delay : Nat)
    (hr : 1 ≤ retries) (obj : List Char × IfaceDict) (index : Nat)
    (hfirst : ((bus 0).filter isCapable).head? = some obj)
    (hparse : parseIndex (trailingSegment obj.1) = some index) :
    find_gps_modem bus retries delay = (.ok (index, obj.1), [Ev.getObjects]) := by
  obtain ⟨rem, rfl⟩ : ∃ rem, retries = rem + 1 :=
    ⟨retries - 1, by omega⟩
  have hscan : scanObjects (bus 0) = some obj.1 := by
    rw [scanObjects_eq_filter_head, hfirst]; rfl
  simp [find_gps_modem, findLoop, findAttempt, hscan, hparse]

/-- The bus enumeration used to witness C5: three objects, the capable one
in the middle (position 1), with index 7 in its trailing path segment. -/
def c5Bus : Nat → ObjectMap := fun _ =>
  [("/org/freedesktop/ModemManager1/Modem/0".toList, []),
   ("/org/freedesktop/ModemManager1/Modem/7".toList,
     [(MM_LOC_IFACE, [(capsKey, 6)])]),
   ("/org/freedesktop/ModemManager1/Modem/2".toList,
     [(MM_LOC_IFACE, [(capsKey, 4)])])]

/-- Witness for C5 at the concrete enumeration `c5Bus`. -/
theorem find_gps_modem_first_capable_witness :
    find_gps_modem c5Bus 15 2 =
      (.ok (7, "/org/freedesktop/ModemManager1/Modem/7".toList), [Ev.getObjects]) :=
  find_gps_modem_first_capable c5Bus 15 2 (by decide)
    ("/org/freedesktop/ModemManager1/Modem/7".toList,
      [(MM_LOC_IFACE, [(capsKey, 6)])]) 7
    rfl rfl

/-- Seconds carried by a `sleep` event. -/
def sleepSecs : Ev → Option Nat
  | .sleep s => some s
  | _ => none

/-- Is this event a `GetManagedObjects` enumeration call? -/
def isGetObjects : Ev → Bool
  | .getObjects => true
  | _ => false

/-- The trace of a discovery run in which every attempt fails to find a
capable source, with `remaining` attempts left starting at `attempt`:
a retry log and a sleep follow every attempt except the last. -/
def discoveryFailTrace (retries delay : Nat) : Nat → Nat → List Ev
  | _, 0 => []
  | attempt, remaining + 1 =>
    if attempt < retries - 1 then
      Ev.getObjects :: Ev.logNoModemRetry (attempt + 1) retries delay ::
        Ev.sleep delay :: discoveryFailTrace retries delay (attempt + 1) remaining
    else
      Ev.getObjects :: discoveryFailTrace retries delay (attempt + 1) remaining

lemma findLoop_all_fail (bus : Nat → ObjectMap) (retries delay : Nat) :
    ∀ remaining attempt,
      (∀ k, attempt ≤ k → k < attempt + remaining → scanObjects (bus k) = none) →
      findLoop bus retries delay attempt remaining =
        (.error (.runtimeError (retries * delay)),
          discoveryFailTrace retries delay attempt remaining) := by
  intro remaining
  induction remaining with
  | zero => intro attempt _; rfl
  | succ rem ih =>
    intro attempt h
    have hscan : scanObjects (bus attempt) = none := h attempt le_rfl (by omega)
    have hrec := ih (attempt + 1) (fun k hk1 hk2 => h k (by omega) (by omega))
    by_cases hlt : attempt < retries - 1 <;>
      simp [findLoop, findAttempt, hscan, hrec, discoveryFailTrace, hlt]

lemma discoveryFailTrace_countGet (retries delay : Nat) :
    ∀ remaining attempt,
      (discoveryFailTrace retries delay attempt remaining).countP isGetObjects =
        remaining := by
  intro remaining
  induction remaining with
  | zero => intro _; rfl
  | succ rem ih =>
    intro attempt
    by_cases hlt : attempt < retries - 1 <;>
      simp [discoveryFailTrace, hlt, List.countP_cons, isGetObjects, ih]

lemma discoveryFailTrace_sleeps (retries delay : Nat) :
    ∀ remaining attempt, attempt + remaining = retries →
      (discoveryFailTrace retries delay attempt remaining).filterMap sleepSecs =
        List.replicate (remaining - 1) delay := by
  intro remaining
  induction remaining with
  | zero => intro _ _; rfl
  | succ rem ih =>
    intro attempt hinv
    by_cases hlt : attempt < retries - 1
    · have hrem : 1 ≤ rem := by omega
      have hrec := ih (attempt + 1) (by omega)
      simp only [discoveryFailTrace, if_pos hlt, List.filterMap_cons, sleepSecs, hrec]
      rw [show rem + 1 - 1 = (rem - 1) + 1 by omega, List.replicate_succ]
    · have hrem0 : rem = 0 := by omega
      subst hrem0
      simp [discoveryFailTrace, hlt, sleepSecs]

lemma discoveryFailTrace_ends_with_attempt (retries delay : Nat) :
    ∀ remaining attempt, attempt + remaining = retries → 1 ≤ remaining →
      ∃ pre, discoveryFailTrace retries delay attempt remaining =
        pre ++ [Ev.getObjects] := by
  intro remaining
  induction remaining with
  | zero => intro _ _ h; omega
  | succ rem ih =>
    intro attempt hinv _
    by_cases hrem : 1 ≤ rem
    · have hlt : attempt < retries - 1 := by omega
      obtain ⟨pre, hpre⟩ := ih (attempt + 1) (by omega) hrem
      exact ⟨Ev.getObjects :: Ev.logNoModemRetry (attempt + 1) retries delay ::
        Ev.sleep delay :: pre, by simp [discoveryFailTrace, hlt, hpre]⟩
    · have hrem0 : rem = 0 := by omega
      have hlt : ¬attempt < retries - 1 := by omega
      subst hrem0
      exact ⟨[], by simp [discoveryFailTrace, hlt]⟩

/-- C6: when no enumeration attempt yields a capable source, discovery with
parameter `retries` makes exactly `retries` enumeration attempts, sleeping
`delay` seconds between consecutive attempts, and then fails with the
"no capable source found" `RuntimeError` carrying the elapsed-time budget
`retries * delay`; it retries no further. -/
theorem find_gps_modem_exhausts_budget (bus : Nat → ObjectMap) (retries delay : Nat)
    (hnone : ∀ k, k < retries → (bus k).filter isCapable = []) :
    (find_gps_modem bus retries delay).1 =
        .error (.runtimeError (retries * delay)) ∧
      (find_gps_modem bus retries delay).2.countP isGetObjects = retries ∧
      (find_gps_modem bus retries delay).2.filterMap sleepSecs =
        List.replicate (retries - 1) delay := by
  have hscan : ∀ k, 0 ≤ k → k < 0 + retries → scanObjects (bus k) = none := by
    intro k _ hk
    rw [scanObjects_eq_filter_head, hnone k (by omega)]
    rfl
  have h := findLoop_all_fail bus retries delay retries 0 hscan
  unfold find_gps_modem
  rw [h]
  exact ⟨rfl, discoveryFailTrace_countGet retries delay retries 0,
    discoveryFailTrace_sleeps retries delay retries 0 (by omega)⟩

/-- Witness for C6 with `retries = 3`, `delay = 2` and a bus with no capable
source: 3 attempts, 2 sleeps, failure after a 6-second budget. -/
theorem find_gps_modem_exhausts_budget_witness :
    (find_gps_modem (fun _ => []) 3 2).1 = .error (.runtimeError 6) ∧
      (find_gps_modem (fun _ => []) 3 2).2.countP isGetObjects = 3 ∧
      (find_gps_modem (fun _ => []) 3 2).2.filterMap sleepSecs =
        List.replicate 2 2 :=
  find_gps_modem_exhausts_budget (fun _ => []) 3 2 (fun _ _ => rfl)

/-- C10: on budget exhaustion, discovery sleeps only between consecutive
attempts — `retries - 1` sleeps totalling `(retries - 1) * delay` seconds,
with no sleep after the final failed attempt (the trace ends with the last
enumeration) — while the raised error reports the full `retries * delay`
second budget. -/
theorem find_gps_modem_sleep_total_vs_reported_budget
    (bus : Nat → ObjectMap) (retries delay : Nat)
    (hnone : ∀ k, k < retries → (bus k).filter isCapable = []) :
    ((find_gps_modem bus retries delay).2.filterMap sleepSecs).length =
        retries - 1 ∧
      ((find_gps_modem bus retries delay).2.filterMap sleepSecs).sum =
        (retries - 1) * delay ∧
      (1 ≤ retries →
        ∃ pre, (find_gps_modem bus retries delay).2 = pre ++ [Ev.getObjects]) ∧
      (find_gps_modem bus retries delay).1 =
        .error (.runtimeError (retries * delay)) := by
  have hscan : ∀ k, 0 ≤ k → k < 0 + retries → scanObjects (bus k) = none := by
    intro k _ hk
    rw [scanObjects_eq_filter_head, hnone k (by omega)]
    rfl
  have h := findLoop_all_fail bus retries delay retries 0 hscan
  have hsleeps := discoveryFailTrace_sleeps retries delay retries 0 (by omega)
  unfold find_gps_modem
  rw [h]
  refine ⟨by rw [hsleeps]; simp, by rw [hsleeps]; simp [mul_comm], ?_, rfl⟩
  intro hr
  exact discoveryFailTrace_ends_with_attempt retries delay retries 0 (by omega) hr

/-- Witness for C10 at the call-site parameters `retries = 15`, `delay = 2`:
14 sleeps totalling 28 seconds, while the error reports 30 seconds. -/
theorem find_gps_modem_sleep_total_vs_reported_budget_witness :
    ((find_gps_modem (fun _ => []) 15 2).2.filterMap sleepSecs).length = 14 ∧
      ((find_gps_modem (fun _ => []) 15 2).2.filterMap sleepSecs).sum = 28 ∧
      (1 ≤ 15 →
        ∃ pre, (find_gps_modem (fun _ => []) 15 2).2 = pre ++ [Ev.getObjects]) ∧
      (find_gps_modem (fun _ => []) 15 2).1 = .error (.runtimeError 30) :=
  find_gps_modem_sleep_total_vs_reported_budget (fun _ => []) 15 2 (fun _ _ => rfl)

/-- Oracle for `location_iface.Setup(GPS_NMEA, True)`: attempt `k` raises a
`dbus.DBusException` whose `get_dbus_name()` is `name` when the oracle
yields `some name`, and succeeds when it yields `none`. -/
abbrev SetupOracle := Nat → Option (List Char)

/-- Is this event a `Setup` bus call? -/
def isSetupCall : Ev → Bool
  | .setupCall _ _ => true
  | _ => false

/-- The bus error name carried by an activation retry log event. -/
def setupRetryName : Ev → Option (List Char)
  | .logSetupRetry name _ => some name
  | _ => none

/-- The activation retry loop of `main`, mirroring
`for attempt in range(10)` with `remaining = 10 - attempt` iterations left:
success breaks out of the loop; a `DBusException` at `attempt == 9` is
re-raised; any earlier one is logged with its bus error name and the retry
counter `attempt + 1`, followed by `time.sleep(2)`.  (`remaining = 0` is
the unreachable fall-through of the `for`.) -/
def activateLoop (res : SetupOracle) : Nat → Nat → Except (List Char) Unit × List Ev
  | _, 0 => (.ok (), [])
  | attempt, remaining + 1 =>
    match res attempt with
    | none => (.ok (), [Ev.setupCall GPS_NMEA true])
    | some name =>
      if attempt = 9 then (.error name, [Ev.setupCall GPS_NMEA true])
      else
        let next := activateLoop res (attempt + 1) remaining
        (next.1, Ev.setupCall GPS_NMEA true ::
          Ev.logSetupRetry name (attempt + 1) :: Ev.sleep 2 :: next.2)

/-- The activation phase of `main`: enable GPS NMEA with up to 10 Setup
attempts. -/
def activateNmea (res : SetupOracle) : Except (List Char) Unit × List Ev :=
  activateLoop res 0 10

/-- The expected activation trace when every attempt fails: each attempt
before the last is a Setup call, a log of its bus error name, and a
2-second sleep; the last attempt is a bare Setup call (its failure is
re-raised). -/
def activationFailTrace (res : SetupOracle) : Nat → Nat → List Ev
  | _, 0 => []
  | attempt, remaining + 1 =>
    if attempt = 9 then [Ev.setupCall GPS_NMEA true]
    else Ev.setupCall GPS_NMEA true ::
      Ev.logSetupRetry ((res attempt).getD []) (attempt + 1) :: Ev.sleep 2 ::
      activationFailTrace res (attempt + 1) remaining

/-- The expected activation trace when attempt `k` is the first success:
each failed attempt is a Setup call, a log of its bus error name, and a
2-second sleep; attempt `k` is the final, successful Setup call. -/
def activationSuccTrace (res : SetupOracle) (k : Nat) : Nat → Nat → List Ev
  | _, 0 => []
  | attempt, remaining + 1 =>
    if attempt = k then [Ev.setupCall GPS_NMEA true]
    else Ev.setupCall GPS_NMEA true ::
      Ev.logSetupRetry ((res attempt).getD []) (attempt + 1) :: Ev.sleep 2 ::
      activationSuccTrace res k (attempt + 1) remaining

lemma activateLoop_all_fail (res : SetupOracle) :
    ∀ remaining attempt, 1 ≤ remaining → attempt + remaining = 10 →
      (∀ k, attempt ≤ k → k < 10 → (res k).isSome) →
      activateLoop res attempt remaining =
        (.error ((res 9).getD []), activationFailTrace res attempt remaining) := by
  intro remaining
  induction remaining with
  | zero => intro _ h; omega
  | succ rem ih =>
    intro attempt _ hinv hfail
    obtain ⟨name, hname⟩ :=
      Option.isSome_iff_exists.mp (hfail attempt le_rfl (by omega))
    by_cases h9 : attempt = 9
    · subst h9
      simp [activateLoop, activationFailTrace, hname]
    · have hrem : 1 ≤ rem := by omega
      have hrec := ih (attempt + 1) hrem (by omega)
        (fun k hk1 hk2 => hfail k (by omega) hk2)
      simp [activateLoop, activationFailTrace, hname, h9, hrec]

lemma activateLoop_first_success (res : SetupOracle) :
    ∀ remaining attempt k, attempt ≤ k → k < attempt + remaining → k ≤ 9 →
      res k = none → (∀ j, attempt ≤ j → j < k → (res j).isSome) →
      activateLoop res attempt remaining =
        (.ok (), activationSuccTrace res k attempt remaining) := by
  intro remaining
  induction remaining with
  | zero => intro attempt k h1 h2; omega
  | succ rem ih =>
    intro attempt k h1 h2 h3 hk hfail
    by_cases heq : attempt = k
    · subst heq
      simp [activateLoop, activationSuccTrace, hk]
    · have hlt : attempt < k := by omega
      obtain ⟨name, hname⟩ :=
        Option.isSome_iff_exists.mp (hfail attempt le_rfl hlt)
      have h9 : attempt ≠ 9 := by omega
      have hrec := ih (attempt + 1) k (by omega) (by omega) h3 hk
        (fun j hj1 hj2 => hfail j (by omega) hj2)
      simp [activateLoop, activationSuccTrace, hname, h9, heq, hrec]

lemma activationSuccTrace_countSetup (res : SetupOracle) :
    ∀ remaining attempt k, attempt ≤ k → k < attempt + remaining →
      (activationSuccTrace res k attempt remaining).countP isSetupCall =
        k - attempt + 1 := by
  intro remaining
  induction remaining with
  | zero => intro attempt k h1 h2; omega
  | succ rem ih =>
    intro attempt k h1 h2
    by_cases heq : attempt = k
    · subst heq
      simp [activationSuccTrace, List.countP_cons, isSetupCall]
    · have hrec := ih (attempt + 1) k (by omega) (by omega)
      simp only [activationSuccTrace, if_neg heq, List.countP_cons, hrec]
      simp [isSetupCall]
      omega

lemma activationSuccTrace_sleeps (res : SetupOracle) :
    ∀ remaining attempt k, attempt ≤ k → k < attempt + remaining →
      (activationSuccTrace res k attempt remaining).filterMap sleepSecs =
        List.replicate (k - attempt) 2 := by
  intro remaining
  induction remaining with
  | zero => intro attempt k h1 h2; omega
  | succ rem ih =>
    intro attempt k h1 h2
    by_cases heq : attempt = k
    · subst heq
      simp [activationSuccTrace, sleepSecs]
    · have hrec := ih (attempt + 1) k (by omega) (by omega)
      simp only [activationSuccTrace, if_neg heq, List.filterMap_cons, sleepSecs, hrec]
      rw [show k - attempt = (k - (attempt + 1)) + 1 by omega, List.replicate_succ]

/-- C7: activation calls `Setup` requesting the NMEA capability enabled and
stops at the first success; each failure before the last attempt is logged
with its bus error name and followed by a fixed 2-second sleep; at most 10
attempts are made in total, and when all 10 fail the 10th failure is
re-raised as fatal.  (The traces spell out one Setup call per attempt with
log-and-sleep between consecutive attempts.) -/
theorem activation_retry_discipline (res : SetupOracle) :
    ((∀ k, k < 10 → (res k).isSome) →
      ∃ name, res 9 = some name ∧
        activateNmea res = (.error name, activationFailTrace res 0 10) ∧
        (activationFailTrace res 0 10).countP isSetupCall = 10 ∧
        (activationFailTrace res 0 10).filterMap sleepSecs =
          List.replicate 9 2) ∧
    (∀ k, k < 10 → res k = none → (∀ j, j < k → (res j).isSome) →
      activateNmea res = (.ok (), activationSuccTrace res k 0 10) ∧
      (activationSuccTrace res k 0 10).countP isSetupCall = k + 1 ∧
      (activationSuccTrace res k 0 10).filterMap sleepSecs =
        List.replicate k 2) := by
  constructor
  · intro hfail
    obtain ⟨name, hname⟩ := Option.isSome_iff_exists.mp (hfail 9 (by omega))
    refine ⟨name, hname, ?_, rfl, rfl⟩
    have h := activateLoop_all_fail res 10 0 (by omega) (by omega)
      (fun k _ hk => hfail k hk)
    rw [activateNmea, h, hname]
    rfl
  · intro k hk hnone hbefore
    have h := activateLoop_first_success res 10 0 k (by omega) (by omega)
      (by omega) hnone (fun j _ hj => hbefore j hj)
    refine ⟨by rw [activateNmea, h], ?_, ?_⟩
    · simpa using activationSuccTrace_countSetup res 10 0 k (by omega) (by omega)
    · simpa using activationSuccTrace_sleeps res 10 0 k (by omega) (by omega)

/-- The Setup oracle witnessing C7: the first two attempts fail with a
NoReply bus error, the third succeeds. -/
def c7Res : SetupOracle := fun n =>
  if n < 2 then some "org.freedesktop.DBus.Error.NoReply".toList else none

/-- Witness for C7: with `c7Res`, activation succeeds on the third attempt,
after 3 Setup calls and 2 sleeps. -/
theorem activation_retry_discipline_witness :
    activateNmea c7Res = (.ok (), activationSuccTrace c7Res 2 0 10) ∧
      (activationSuccTrace c7Res 2 0 10).countP isSetupCall = 2 + 1 ∧
      (activationSuccTrace c7Res 2 0 10).filterMap sleepSecs =
        List.replicate 2 2 :=
  (activation_retry_discipline c7Res).2 2 (by omega) rfl
    (fun j hj => by interval_cases j <;> rfl)

/-- Filesystem state of the alias path `PTY_LINK`. -/
inductive AliasState where
  | absent
  | stale
  | current
  deriving DecidableEq, Repr

/-- `os.path.islink(PTY_LINK)` (a stale entry left by a previous run is a
symlink; a plain regular file at the path is not distinguished here). -/
def AliasState.islink : AliasState → Bool
  | .absent => false
  | _ => true

/-- The process-visible state the bridge mutates: the global `master_fd`
variable, whether that descriptor is still open at OS level, and the alias
path. -/
structure World where
  masterFd : Option Nat
  masterOpen : Bool
  aliasState : AliasState
  deriving DecidableEq, Repr

/-- Interpreter start: `master_fd = None`, nothing open; the alias path may
hold a stale link from a previous run. -/
def initWorld (stale : Bool) : World :=
  { masterFd := none, masterOpen := false,
    aliasState := if stale then .stale else .absent }

/-- `cleanup(location_iface)`: log, best-effort `Setup(0, False)` (any
exception swallowed by `except Exception: pass`), unlink the alias if it is
a symlink, `os.close(master_fd)` when the global is not `None` — raising
`OSError` (`EBADF`) when that descriptor is no longer open, since
`master_fd` is never reset to `None` — then `sys.exit(0)` (which raises
`SystemExit(0)`).  Result: final world, events, and the exception
terminating the call. -/
def cleanup (w : World) : World × List Ev × PyExc :=
  let tr := [Ev.logShuttingDown, Ev.setupCall 0 false]
  let w1 := if w.aliasState.islink then { w with aliasState := .absent } else w
  match w1.masterFd with
  | some _ =>
    if w1.masterOpen then ({ w1 with masterOpen := false }, tr, .systemExit 0)
    else (w1, tr, .osError "EBADF".toList)
  | none => (w1, tr, .systemExit 0)

/-- The world while `RUNNING`: PTY created, master open, alias published. -/
def runningWorld : World :=
  { masterFd := some 3, masterOpen := true, aliasState := .current }

/-- C4 counterexample: the first `cleanup` from `RUNNING` exits with
success, but a second invocation — e.g. a second termination signal during
teardown — raises `OSError` from the double `os.close` (the global
`master_fd` still holds the closed descriptor) instead of exiting with
success, so the second call is not effect-free. -/
theorem cleanup_not_idempotent :
    (cleanup runningWorld).2.2 = PyExc.systemExit 0 ∧
      (cleanup (cleanup runningWorld).1).2.2 = PyExc.osError "EBADF".toList ∧
      (cleanup (cleanup runningWorld).1).2.2 ≠ PyExc.systemExit 0 := by
  refine ⟨rfl, rfl, by decide⟩

/-- C4 (amended): `cleanup` is safe to call when nothing was created (it
still exits with success) and its alias-removal step is idempotent (the
alias is absent after any call); but the handle close is not idempotent: a
second invocation after the handle was already closed raises `OSError`
from the double `os.close` instead of exiting with success status. -/
theorem cleanup_partial_idempotence (w : World) :
    (w.masterFd = none →
      (cleanup w).2.2 = PyExc.systemExit 0 ∧
        (cleanup w).1.masterOpen = w.masterOpen) ∧
    (w.masterFd ≠ none → w.masterOpen = true →
      (cleanup w).2.2 = PyExc.systemExit 0 ∧
        (cleanup w).1.masterOpen = false ∧
        (cleanup w).1.aliasState = AliasState.absent ∧
        (cleanup w).1.masterFd = w.masterFd) ∧
    (w.masterFd ≠ none → w.masterOpen = false →
      (cleanup w).2.2 = PyExc.osError "EBADF".toList ∧
        (cleanup w).1.aliasState = AliasState.absent) := by
  obtain ⟨fd, op, al⟩ := w
  refine ⟨?_, ?_, ?_⟩
  · rintro rfl
    cases al <;> simp [cleanup, AliasState.islink]
  · rintro hfd rfl
    cases fd with
    | none => exact absurd rfl hfd
    | some n => cases al <;> simp [cleanup, AliasState.islink]
  · rintro hfd rfl
    cases fd with
    | none => exact absurd rfl hfd
    | some n => cases al <;> simp [cleanup, AliasState.islink]

/-- Witness for C4's amended statement: the first teardown from `RUNNING`
exits 0, closes the handle and removes the alias. -/
theorem cleanup_partial_idempotence_witness :
    (cleanup runningWorld).2.2 = PyExc.systemExit 0 ∧
      (cleanup runningWorld).1.masterOpen = false ∧
      (cleanup runningWorld).1.aliasState = AliasState.absent ∧
      (cleanup runningWorld).1.masterFd = runningWorld.masterFd :=
  (cleanup_partial_idempotence runningWorld).2.1 (by decide) rfl

/-- Oracle for the fallible host operations of `setup_pty`. -/
structure FsOracle where
  grpOk : Bool
  unlinkErr : Option (List Char)
  symlinkErr : Option (List Char)

/-- The `os.symlink(slave_name, PTY_LINK)` step of `setup_pty`. -/
def symlinkStep (o : FsOracle) (w : World) : Except (PyExc × World) World :=
  match o.symlinkErr with
  | some e => .error (.osError e, w)
  | none => .ok { w with aliasState := .current }

/-- `setup_pty()`: allocate the PTY pair (the master handle is opened, the
slave handle closed immediately after its device is named), look up the
`dialout` group (`grp.getgrnam` raises `KeyError` on failure),
chown/chmod the slave device, remove any pre-existing link at `PTY_LINK`,
and symlink the slave name to `PTY_LINK`.  On an exception the partially
updated world travels with it — Python rolls nothing back. -/
def setup_pty (o : FsOracle) (w0 : World) : Except (PyExc × World) World :=
  let w := { w0 with masterFd := some 3, masterOpen := true }
  if !o.grpOk then
    .error (.keyError "getgrnam(): name not found: dialout".toList, w)
  else if w.aliasState.islink then
    match o.unlinkErr with
    | some e => .error (.osError e, w)
    | none => symlinkStep o { w with aliasState := .absent }
  else
    symlinkStep o w

/-- `f"/org/freedesktop/ModemManager1/Modem/{modem_index}"`. -/
def modemPathOf (index : Nat) : List Char :=
  "/org/freedesktop/ModemManager1/Modem/".toList ++ (Nat.repr index).toList

/-- Oracles for one run of `main()`. -/
structure MainOracle where
  fs : FsOracle
  argv : Option Nat
  bus : Nat → ObjectMap
  setupRes : SetupOracle

/-- How the startup phase of `main()` ends. -/
inductive MainOutcome where
  | running (modemIndex : Nat) (modemPath : List Char)
  | uncaught (exc : PyExc)
  deriving DecidableEq, Repr

/-- The activation segment of `main` (Setup retry loop and its log). -/
def activationPhase (o : MainOracle) (w : World) (index : Nat)
    (path : List Char) (tr : List Ev) : World × List Ev × MainOutcome :=
  match activateNmea o.setupRes with
  | (.error name, tr2) => (w, tr ++ tr2, .uncaught (.dbusError name))
  | (.ok _, tr2) =>
    (w, tr ++ tr2 ++ [Ev.logNmeaEnabled index path], .running index path)

/-- The startup phase of `main()` up to entering the GLib main loop:
`setup_pty`, modem selection (CLI argument verbatim, or discovery with
retries 15 and delay 2), then activation.  There is no `try/finally`
anywhere in `main`: an exception on any of these paths terminates the
process with the world as it stands — `cleanup` is installed only as a
signal handler, and only after activation has succeeded.  A run that gets
past activation is `running` (signal registration, the best-effort gpsd
notification and the reactor lie beyond the modelled claims). -/
def mainStartup (o : MainOracle) (w0 : World) : World × List Ev × MainOutcome :=
  match setup_pty o.fs w0 with
  | .error (exc, w) => (w, [], .uncaught exc)
  | .ok w =>
    match o.argv with
    | some index => activationPhase o w index (modemPathOf index) []
    | none =>
      match find_gps_modem o.bus 15 2 with
      | (.error exc, tr) => (w, tr, .uncaught exc)
      | (.ok (index, path), tr) =>
        activationPhase o w index path (tr ++ [Ev.logAutoDiscovered index path])

/-- The oracle refuting C3: healthy filesystem, no CLI argument, and a bus
on which no capable modem ever appears, so discovery exhausts its budget. -/
def c3Oracle : MainOracle :=
  { fs := { grpOk := true, unlinkErr := none, symlinkErr := none },
    argv := none, bus := fun _ => [], setupRes := fun _ => none }

/-- C3 counterexample: when discovery exhausts its budget, startup aborts by
the uncaught `RuntimeError` — but the controller-side handle is still open
and the alias symlink still present at exit.  Endpoint release is NOT
attempted before the process dies. -/
theorem fatal_startup_keeps_endpoint :
    (mainStartup c3Oracle (initWorld false)).2.2 =
        MainOutcome.uncaught (.runtimeError 30) ∧
      (mainStartup c3Oracle (initWorld false)).1.masterOpen = true ∧
      (mainStartup c3Oracle (initWorld false)).1.aliasState =
        AliasState.current := by
  refine ⟨rfl, rfl, rfl⟩

lemma setup_pty_error_world (o : FsOracle) (w0 : World) (exc : PyExc) (w : World)
    (h : setup_pty o w0 = .error (exc, w)) : w.masterOpen = true := by
  unfold setup_pty symlinkStep at h
  by_cases hg : o.grpOk
  · by_cases hl : ({ w0 with masterFd := some 3, masterOpen := true } : World).aliasState.islink
    · cases hu : o.unlinkErr with
      | some e => simp [hg, hl, hu] at h; simp [← h.2]
      | none =>
        cases hs : o.symlinkErr with
        | some e => simp [hg, hl, hu, hs] at h; simp [← h.2]
        | none => simp [hg, hl, hu, hs] at h
    · cases hs : o.symlinkErr with
      | some e => simp [hg, hl, hs] at h; simp [← h.2]
      | none => simp [hg, hl, hs] at h
  · simp [hg] at h
    simp [← h.2]

lemma setup_pty_ok_world (o : FsOracle) (w0 : World) (w : World)
    (h : setup_pty o w0 = .ok w) :
    w.masterOpen = true ∧ w.aliasState = AliasState.current := by
  unfold setup_pty symlinkStep at h
  by_cases hg : o.grpOk
  · by_cases hl : ({ w0 with masterFd := some 3, masterOpen := true } : World).aliasState.islink
    · cases hu : o.unlinkErr with
      | some e => simp [hg, hl, hu] at h
      | none =>
        cases hs : o.symlinkErr with
        | some e => simp [hg, hl, hu, hs] at h
        | none => simp [hg, hl, hu, hs] at h; simp [← h]
    · cases hs : o.symlinkErr with
      | some e => simp [hg, hl, hs] at h
      | none => simp [hg, hl, hs] at h; simp [← h]
  · simp [hg] at h

/-- C3 (amended): every fatal startup error — group-lookup failure,
filesystem failure on the alias path, discovery budget exhausted,
activation budget exhausted — aborts the process WITHOUT attempting
endpoint release: the controller-side handle is open at exit, and whenever
the error struck after `setup_pty` succeeded the alias symlink is still in
place.  (`cleanup` runs only from the signal handlers installed after
activation.) -/
theorem mainStartup_fatal_no_release (o : MainOracle) (w0 : World) (exc : PyExc)
    (_h : (mainStartup o w0).2.2 = MainOutcome.uncaught exc) :
    (mainStartup o w0).1.masterOpen = true ∧
      (∀ w1, setup_pty o.fs w0 = .ok w1 →
        (mainStartup o w0).1.aliasState = AliasState.current) := by
  unfold mainStartup
  cases hsetup : setup_pty o.fs w0 with
  | error p =>
    obtain ⟨e, w⟩ := p
    refine ⟨setup_pty_error_world o.fs w0 e w hsetup, ?_⟩
    intro w1 hok
    exact absurd hok (by simp)
  | ok w =>
    obtain ⟨hopen, halias⟩ := setup_pty_ok_world o.fs w0 w hsetup
    have hgoal : ∀ idx path tr,
        (activationPhase o w idx path tr).1.masterOpen = true ∧
          (activationPhase o w idx path tr).1.aliasState = AliasState.current := by
      intro idx path tr
      unfold activationPhase
      cases hact : activateNmea o.setupRes with
      | mk r tr2 =>
        cases r <;> exact ⟨hopen, halias⟩
    cases o.argv with
    | some index =>
      exact ⟨(hgoal index (modemPathOf index) []).1,
        fun w1 _ => (hgoal index (modemPathOf index) []).2⟩
    | none =>
      cases hfind : find_gps_modem o.bus 15 2 with
      | mk r tr =>
        cases r with
        | error e => exact ⟨hopen, fun w1 _ => halias⟩
        | ok p =>
          obtain ⟨index, path⟩ := p
          exact ⟨(hgoal index path (tr ++ [Ev.logAutoDiscovered index path])).1,
            fun w1 _ => (hgoal index path (tr ++ [Ev.logAutoDiscovered index path])).2⟩

/-- Witness for C3's amended statement at the discovery-exhaustion run:
the handle stays open and the alias stays linked. -/
theorem mainStartup_fatal_no_release_witness :
    (mainStartup c3Oracle (initWorld false)).1.masterOpen = true ∧
      (mainStartup c3Oracle (initWorld false)).1.aliasState =
        AliasState.current :=
  ⟨(mainStartup_fatal_no_release c3Oracle (initWorld false)
      (.runtimeError 30) rfl).1,
    (mainStartup_fatal_no_release c3Oracle (initWorld false)
      (.runtimeError 30) rfl).2
      { masterFd := some 3, masterOpen := true, aliasState := .current } rfl⟩

end MMNmeaBridge
